import Mathlib

/-!
# Verification of the Redeban automation repository

Shallow embedding of the decision logic of the `atlas-automation-redeban`
repository, together with theorems settling the frozen claims about it.

The embedded functions are translated from the JavaScript sources:
* `src/modules/utils.js` — `parsePlaywrightError`, `checkNetworkConnectivity`,
  `createOptimalBrowserContext` (the proxy/direct context selector);
* the legacy copy of the same two functions appended at the end of
  `src/modules/navigation.js` (lines 981-1079), whose error branch differs;
* `src/redeban-hybrid.js` — `runHybridAutomation` engine selection (step 2);
* the dual-Chrome test script (`unnamed/part_003`) — `runDualChromeTest`,
  `runChromeTest`;
* `src/redeban-final-solution.js` — `runAntiDetectionAutomation` success
  classification;
* `src/modules/navigation.js` — `waitForOTPFromWebSocket` polling loop,
  `login` / `handleOTPFlow` / `checkOTPResult` control flow;
* `src/redeban.js` — `uploadFile` workflow driver control flow.

Effectful steps (network navigation, subprocess spawning, file reads) are
modelled by passing the outcome the environment produced for that step as an
explicit argument, so every definition is an executable total function.
-/

/-- Whether `pat` is a prefix of `s` (over character lists). -/
def startsWithChars : List Char → List Char → Bool
  | [], _ => true
  | _ :: _, [] => false
  | p :: ps, c :: cs => p == c && startsWithChars ps cs

/-- Whether `pat` occurs as a contiguous substring of `s`
(over character lists). -/
def containsChars (pat : List Char) : List Char → Bool
  | [] => startsWithChars pat []
  | c :: cs => startsWithChars pat (c :: cs) || containsChars pat cs

/-- JavaScript `s.includes(pat)`: `pat` occurs as a substring of `s`. -/
def strIncludes (s pat : String) : Bool :=
  containsChars pat.data s.data

/-- JavaScript `s.toLowerCase()` (ASCII range, which covers every pattern the
source compares against). -/
def strToLower (s : String) : String :=
  String.mk (s.data.map Char.toLower)

/-- JavaScript `s.trim()`: strip leading and trailing whitespace. -/
def strTrim (s : String) : String :=
  String.mk (((s.data.dropWhile Char.isWhitespace).reverse.dropWhile
    Char.isWhitespace).reverse)

/-! ## Connectivity prober (`checkNetworkConnectivity`) and error classifier -/

/-- The `type` field of the record returned by `parsePlaywrightError`
(`src/modules/utils.js` lines 111-127). -/
inductive PlaywrightErrType
  | timeout
  | network
  | access
  | selector
  | general
  | unknown
deriving DecidableEq, Repr

/-- The record returned by `parsePlaywrightError`: an error type plus a
human-readable message. -/
structure PlaywrightErrInfo where
  type : PlaywrightErrType
  message : String
deriving DecidableEq, Repr

/-- `parsePlaywrightError` from `src/modules/utils.js` lines 111-127.
The input is the `message` of the caught error (`none` models a nullish
error or an error without a message). -/
def parsePlaywrightError (errMessage : Option String) : PlaywrightErrInfo :=
  match errMessage with
  | none => { type := .unknown, message := "Error desconocido" }
  | some m =>
    let message := strToLower m
    if strIncludes message "timeout" then
      { type := .timeout, message := "Timeout esperando elemento o navegacion" }
    else if strIncludes message "net::err_timed_out" then
      { type := .network, message := "Error de conexion - timeout de red" }
    else if strIncludes message "403" || strIncludes message "forbidden" then
      { type := .access, message := "Acceso prohibido - verificar proxy/IP" }
    else if strIncludes message "selector" then
      { type := .selector, message := "Elemento no encontrado en la pagina" }
    else
      { type := .general, message := m }

/-- Outcome of the probe navigation performed by `checkNetworkConnectivity`:
either the page loaded and reported an HTTP status and title, or the
navigation threw an error carrying a message. -/
inductive ProbeOutcome
  | response (statusCode : Nat) (title : String)
  | navError (message : String)
deriving DecidableEq, Repr

/-- The object returned by `checkNetworkConnectivity`. Fields absent from a
given `return` statement in the source are modelled as `none` / `false`. -/
structure ConnCheckResult where
  useProxy : Bool
  statusCode : Option Nat
  title : Option String
  error : Option String
  forceDirectConnection : Bool
deriving DecidableEq, Repr

/-- Classification logic of `checkNetworkConnectivity` from
`src/modules/utils.js` lines 152-200, as a function of the probe outcome.
Note the error branch (lines 190-199): it returns `useProxy: false` with
`forceDirectConnection: true` (the "TEMPORAL" AWS workaround). -/
def checkNetworkConnectivity_classify (p : ProbeOutcome) : ConnCheckResult :=
  match p with
  | .response statusCode title =>
    if statusCode == 200 && strIncludes title "Pagos Recurrentes" then
      { useProxy := false, statusCode := some statusCode, title := some title
        error := none, forceDirectConnection := false }
    else if statusCode == 403 then
      { useProxy := true, statusCode := some statusCode, title := some title
        error := none, forceDirectConnection := false }
    else
      { useProxy := true, statusCode := some statusCode, title := some title
        error := none, forceDirectConnection := false }
  | .navError message =>
    let errorInfo := parsePlaywrightError (some message)
    { useProxy := false, statusCode := none, title := none
      error := some errorInfo.message, forceDirectConnection := true }

/-- Classification logic of the legacy `checkNetworkConnectivity` copy at the
end of `src/modules/navigation.js` (lines 981-1032). Its error branch returns
`useProxy: true` in both of its sub-branches. -/
def checkNetworkConnectivity_classify_legacy (p : ProbeOutcome) : ConnCheckResult :=
  match p with
  | .response statusCode title =>
    if statusCode == 200 && strIncludes title "Pagos Recurrentes" then
      { useProxy := false, statusCode := some statusCode, title := some title
        error := none, forceDirectConnection := false }
    else if statusCode == 403 then
      { useProxy := true, statusCode := some statusCode, title := some title
        error := none, forceDirectConnection := false }
    else
      { useProxy := true, statusCode := some statusCode, title := some title
        error := none, forceDirectConnection := false }
  | .navError message =>
    let errorInfo := parsePlaywrightError (some message)
    if errorInfo.type = .network ∨ errorInfo.type = .timeout then
      { useProxy := true, statusCode := none, title := none
        error := some errorInfo.message, forceDirectConnection := false }
    else
      { useProxy := true, statusCode := none, title := none
        error := some errorInfo.message, forceDirectConnection := false }

/-! ## Proxy/direct context selector (`createOptimalBrowserContext`) -/

/-- Static configuration consumed by the selector (`src/modules/config.js`:
`proxyHost`, `proxyPort`, `proxyUsername`, `proxyPassword`, all strings). -/
structure RedebanConfig where
  proxyHost : String
  proxyPort : String
  proxyUsername : String
  proxyPassword : String
deriving DecidableEq, Repr

/-- The `proxy` sub-object passed to `browser.newContext`. -/
structure ProxySettings where
  server : String
  username : String
  password : String
deriving DecidableEq, Repr

/-- The options object passed to `browser.newContext` by
`createOptimalBrowserContext` (the SessionProfile of the spec). -/
structure ContextOptions where
  ignoreHTTPSErrors : Bool
  userAgent : String
  locale : String
  timezoneId : String
  extraHTTPHeaders : List (String × String)
  proxy : Option ProxySettings
  viewport : Option (Nat × Nat)
deriving DecidableEq, Repr

/-- The context-options construction of `createOptimalBrowserContext` from
`src/modules/utils.js` lines 218-288, for a supplied (non-null) connectivity
result. The `useProxy` branch builds the Oxylabs proxy profile (lines
238-253); the direct branch builds the "anti-detection" profile (lines
260-283) with `proxy` absent. -/
def createOptimalContextOptions (connectivityResult : ConnCheckResult)
    (config : RedebanConfig) : ContextOptions :=
  if connectivityResult.useProxy then
    { ignoreHTTPSErrors := true
      userAgent := "Mozilla/5.0 (Windows NT 10.0; Win64; x64) AppleWebKit/537.36 (KHTML, like Gecko) Chrome/120.0.0.0 Safari/537.36"
      locale := "es-CO"
      timezoneId := "America/Bogota"
      extraHTTPHeaders :=
        [("Accept", "text/html,application/xhtml+xml,application/xml;q=0.9,image/webp,*/*;q=0.8")
        , ("Accept-Language", "es-CO,es;q=0.9,en;q=0.8")
        , ("Accept-Encoding", "gzip, deflate, br")
        , ("Connection", "keep-alive")
        , ("Upgrade-Insecure-Requests", "1")]
      proxy := some
        { server := "http://" ++ config.proxyHost ++ ":" ++ config.proxyPort
          username := config.proxyUsername
          password := config.proxyPassword }
      viewport := none }
  else
    { ignoreHTTPSErrors := true
      userAgent := "Mozilla/5.0 (Windows NT 10.0; Win64; x64) AppleWebKit/537.36 (KHTML, like Gecko) Chrome/130.0.0.0 Safari/537.36"
      locale := "es-CO"
      timezoneId := "America/Bogota"
      extraHTTPHeaders :=
        [("Accept", "text/html,application/xhtml+xml,application/xml;q=0.9,image/avif,image/webp,image/apng,*/*;q=0.8,application/signed-exchange;v=b3;q=0.7")
        , ("Accept-Language", "es-ES,es;q=0.9,en;q=0.8")
        , ("Accept-Encoding", "gzip, deflate, br, zstd")
        , ("DNT", "1")
        , ("Connection", "keep-alive")
        , ("Upgrade-Insecure-Requests", "1")
        , ("Sec-Fetch-Dest", "document")
        , ("Sec-Fetch-Mode", "navigate")
        , ("Sec-Fetch-Site", "none")
        , ("Sec-Fetch-User", "?1")
        , ("sec-ch-ua", "\"Chromium\";v=\"130\", \"Google Chrome\";v=\"130\", \"Not?A_Brand\";v=\"99\"")
        , ("sec-ch-ua-mobile", "?0")
        , ("sec-ch-ua-platform", "\"Windows\"")]
      proxy := none
      viewport := some (1366, 768) }

/-- The context-options construction of the legacy `createOptimalBrowserContext`
copy at the end of `src/modules/navigation.js` (lines 1050-1079): the proxy
branch is `baseConfig` plus the proxy credentials, the direct branch is just
`baseConfig` (Mac user agent, no extra headers). -/
def createOptimalContextOptions_legacy (connectivityResult : ConnCheckResult)
    (config : RedebanConfig) : ContextOptions :=
  if connectivityResult.useProxy then
    { ignoreHTTPSErrors := true
      userAgent := "Mozilla/5.0 (Macintosh; Intel Mac OS X 10_15_7) AppleWebKit/537.36 (KHTML, like Gecko) Chrome/120.0.0.0 Safari/537.36"
      locale := "es-CO"
      timezoneId := "America/Bogota"
      extraHTTPHeaders := []
      proxy := some
        { server := "http://" ++ config.proxyHost ++ ":" ++ config.proxyPort
          username := config.proxyUsername
          password := config.proxyPassword }
      viewport := none }
  else
    { ignoreHTTPSErrors := true
      userAgent := "Mozilla/5.0 (Macintosh; Intel Mac OS X 10_15_7) AppleWebKit/537.36 (KHTML, like Gecko) Chrome/120.0.0.0 Safari/537.36"
      locale := "es-CO"
      timezoneId := "America/Bogota"
      extraHTTPHeaders := []
      proxy := none
      viewport := none }

/-! ## Engine fallback (`runHybridAutomation` step 2, `runDualChromeTest`) -/

/-- The two browser engines tried by `runHybridAutomation`
(`src/redeban-hybrid.js` lines 383-404). -/
inductive EngineKind
  | puppeteerMinimal
  | chromeDirect
deriving DecidableEq, Repr

/-- Engine selection of `runHybridAutomation` step 2
(`src/redeban-hybrid.js` lines 383-404): Puppeteer minimal is always tried
first; Chrome direct is tried only when no working method was found yet.
Returns the list of engines actually invoked (in order) and the selected
working method, `none` when both failed (the source then throws). -/
def runHybrid_selectMethod (puppeteerSuccess chromeSuccess : Bool) :
    List EngineKind × Option EngineKind :=
  let invoked := [EngineKind.puppeteerMinimal]
  let workingMethod : Option EngineKind :=
    if puppeteerSuccess then some .puppeteerMinimal else none
  if workingMethod.isNone then
    (invoked ++ [EngineKind.chromeDirect],
     if chromeSuccess then some .chromeDirect else none)
  else
    (invoked, workingMethod)

/-- Overall status of the hybrid run if the engine-selection step is reached:
when no method works the source throws and the catch block writes the
`failed` metadata (lines 400-402, 426-433). -/
def runHybrid_overallSuccess (puppeteerSuccess chromeSuccess : Bool) : Bool :=
  (runHybrid_selectMethod puppeteerSuccess chromeSuccess).2.isSome

/-- The two Chrome invocations of `runDualChromeTest` (`unnamed/part_003`
lines 355-426). -/
inductive ChromeVariant
  | simple
  | stealth
deriving DecidableEq, Repr

/-- The result object produced by `runChromeTest` / `runAntiDetectionAutomation`
for one Chrome subprocess attempt. -/
structure ChromeTestResult where
  success : Bool
  screenshotSize : Option Nat
  exitCode : Option Int
deriving DecidableEq, Repr

/-- Success classification of `runChromeTest` (`unnamed/part_003` lines
428-503) for a Chrome process that reached its `close` event: success holds
exactly when the screenshot file exists and its size exceeds 15000 bytes
(`stats.size > 15000`, line 468); the exit code is recorded but does not
enter the decision. The same threshold is used for both the simple and the
stealth invocation of the dual test. -/
def runChromeTest_classify (screenshotExists : Bool) (size : Nat)
    (exitCode : Int) : ChromeTestResult :=
  if screenshotExists then
    { success := decide (15000 < size), screenshotSize := some size
      exitCode := some exitCode }
  else
    { success := false, screenshotSize := none, exitCode := some exitCode }

/-- Success classification of `runAntiDetectionAutomation`
(`src/redeban-final-solution.js` lines 248-297), the stealth-only variant:
the threshold is 50000 bytes (`stats.size > 50000`, line 272). -/
def runAntiDetection_classify (screenshotExists : Bool) (size : Nat)
    (exitCode : Int) : ChromeTestResult :=
  if screenshotExists then
    { success := decide (50000 < size), screenshotSize := some size
      exitCode := some exitCode }
  else
    { success := false, screenshotSize := none, exitCode := some exitCode }

/-- `runDualChromeTest` (`unnamed/part_003` lines 355-426): both Chrome
variants are ALWAYS invoked (simple first, then stealth, lines 364-403);
the simple result is preferred when successful, otherwise the stealth result
when successful, otherwise the one with the larger screenshot
(`(simpleResult.screenshotSize || 0) > (stealthResult.screenshotSize || 0)`).
Returns the invocation order actually performed and the returned result. -/
def runDualChromeTest_model (simpleResult stealthResult : ChromeTestResult) :
    List ChromeVariant × ChromeTestResult :=
  ([ChromeVariant.simple, ChromeVariant.stealth],
   if simpleResult.success then simpleResult
   else if stealthResult.success then stealthResult
   else if stealthResult.screenshotSize.getD 0 < simpleResult.screenshotSize.getD 0 then
     simpleResult
   else
     stealthResult)

/-- Final status written by `runComprehensiveSolution` in `unnamed/part_003`
(line 545): `success` when the selected Chrome result succeeded, else
`failed`. -/
def runComprehensive_status (chromeSuccess : Bool) : String :=
  if chromeSuccess then "success" else "failed"

/-! ## Unattended OTP wait (`waitForOTPFromWebSocket`) -/

/-- What one poll of `/tmp/otp-input.txt` observes: the file is absent, the
file exists with some content, or the read fails (file being written). -/
inductive OTPObs
  | absent
  | content (s : String)
  | readError
deriving DecidableEq, Repr

/-- The validity test applied to the trimmed file content
(`/^\d{6}$/.test(cleanOtp)` together with the truthiness check on
`cleanOtp`, `src/modules/navigation.js` line 106): exactly six decimal
digits. -/
def isSixDigitOTP (s : String) : Bool :=
  s.data.length == 6 && s.data.all Char.isDigit

/-- What one execution of `checkForOTPFile` does with its observation
(`src/modules/navigation.js` lines 78-142): valid content resolves the wait
(deleting the file first, lines 107-115); invalid content deletes the file
and falls through to the shared continue/timeout logic (lines 118-128);
an absent file or a read error falls through to the same logic. -/
inductive OTPStepAction
  | resolveWith (code : String)
  | deleteAndContinue
  | continueWaiting
deriving DecidableEq, Repr

/-- One poll step of `checkForOTPFile`. -/
def otpCheckStep (obs : OTPObs) : OTPStepAction :=
  match obs with
  | .content s =>
    let cleanOtp := strTrim s
    if isSixDigitOTP cleanOtp then .resolveWith cleanOtp
    else .deleteAndContinue
  | .absent => .continueWaiting
  | .readError => .continueWaiting

/-- Result of `waitForOTPFromWebSocket`: the promise resolves with a code or
rejects with the timeout error. -/
inductive OTPWaitResult
  | resolved (code : String)
  | timedOut
deriving DecidableEq, Repr

/-- The polling loop of `waitForOTPFromWebSocket`
(`src/modules/navigation.js` lines 58-147). `sched n` is what the n-th poll
(0-indexed) observes; `timeoutMs` is the timeout; `elapsed` is `elapsedTime`.
Every non-resolving poll executes `elapsedTime += checkInterval` (1000 ms)
and rejects when `elapsedTime >= timeoutMs`, otherwise schedules the next
poll. `fuel` is an upper bound on the remaining polls, used only to make the
recursion structural; the wrapper supplies enough fuel that it is never the
reason the loop stops. -/
def otpLoopMs (sched : Nat → OTPObs) (timeoutMs : Nat) :
    Nat → Nat → Nat → OTPWaitResult
  | 0, _, _ => .timedOut
  | fuel + 1, tick, elapsed =>
    match otpCheckStep (sched tick) with
    | .resolveWith code => .resolved code
    | _ =>
      if timeoutMs ≤ elapsed + 1000 then .timedOut
      else otpLoopMs sched timeoutMs fuel (tick + 1) (elapsed + 1000)

/-- `waitForOTPFromWebSocket` as a function of the observation schedule:
polling starts at tick 0 with `elapsedTime = 0`. -/
def waitForOTPFromWebSocket_model (sched : Nat → OTPObs) (timeoutMs : Nat) :
    OTPWaitResult :=
  otpLoopMs sched timeoutMs (timeoutMs + 1) 0 0

/-- Whether the n-th poll observes a file whose trimmed content is a valid
six-digit OTP. -/
def validOTPAt (sched : Nat → OTPObs) (n : Nat) : Bool :=
  match sched n with
  | .content s => isSixDigitOTP (strTrim s)
  | _ => false

/-! ## Workflow driver (`uploadFile` in `src/redeban.js` together with
`login` / `handleOTPFlow` / `checkOTPResult` in `src/modules/navigation.js`) -/

/-- Reason recorded when the run fails (the error strings written to the
`failed` metadata, abstracted to an enum). -/
inductive FailReason
  | navigationError
  | loginPageNotFound
  | formFillError
  | formSubmitError
  | credentialError
  | otpTimeout
  | otpInvalid
  | loginUncertain
  | uploadStepError
  | submitClickError
deriving DecidableEq, BEq, Repr

/-- Observable steps of one `uploadFile` run, in source order:
* `wroteStarted` — `writeMetadataToS3('started', ...)` (redeban.js line 78);
* `browserLaunched`, `connectivityChecked`, `contextCreated` — lines 86-105
  (these precede the `try` block);
* `loginSubmitted` — `submitLoginForm` succeeded (navigation.js line 771);
* `otpSubmitted` — the OTP was filled and Enter pressed (lines 541-547);
* `otpVerified` — `handleOTPFlow` returned `{success: true}`: either a
  submitted OTP passed `checkOTPResult` and `checkLoginSuccess`, or no OTP
  field was presented and `checkLoginSuccess` held (lines 509-511, 554, 601);
* `loggedIn` — `uploadFile` observed `loginResult.success` (line 112);
* `fileSelected` — `page.setInputFiles` (line 136);
* `formSubmitted` — `page.click('button:has-text("Enviar")')` (line 157);
* `wroteCompleted` / `wroteFailed r` — the terminal metadata writes
  (lines 166, 114, 177). -/
inductive StepName
  | wroteStarted
  | browserLaunched
  | connectivityChecked
  | contextCreated
  | loginSubmitted
  | otpSubmitted
  | otpVerified
  | loggedIn
  | fileSelected
  | formSubmitted
  | wroteCompleted
  | wroteFailed (r : FailReason)
deriving DecidableEq, BEq, Repr

/-- Outcome of the `login` call. -/
inductive LoginOutcome
  | ok
  | failed (r : FailReason)
deriving DecidableEq, Repr

/-- The outcomes the external world (portal, network, filesystem, operator)
produces for each effectful step of one run. Each field tells whether the
corresponding source step succeeds / what the portal reports there. -/
structure DriverEnv where
  /-- `chromium.launch`, `createOptimalBrowserContext` and `context.newPage`
  (redeban.js lines 86-105, before the `try` block) all succeed. -/
  launchOk : Bool
  /-- `page.goto` + `waitForLoadState` in `login` succeed
  (navigation.js lines 741-742). -/
  navOk : Bool
  /-- The login page title contains `Pagos Recurrentes`
  (navigation.js line 752). -/
  pageTitleOk : Bool
  /-- `fillLoginForm` fills both fields (navigation.js lines 373-430). -/
  fillOk : Bool
  /-- `submitLoginForm` submits (navigation.js lines 432-471). -/
  submitOk : Bool
  /-- `checkCredentialErrors` detects a credential error
  (navigation.js lines 776-791). -/
  credErr : Bool
  /-- `handleOTPFlow` finds an OTP input field (navigation.js lines 492-507). -/
  otpFieldPresent : Bool
  /-- The OTP wait resolves with a code (false: timeout/cancel, the
  `handleOTPFlow` catch rethrows, navigation.js lines 517-538). -/
  otpProvided : Bool
  /-- `checkOTPResult` finds no invalid-OTP marker
  (navigation.js lines 557-602). -/
  otpAccepted : Bool
  /-- `checkLoginSuccess` finds a success indicator
  (navigation.js lines 604-631). -/
  loginIndicatorsOk : Bool
  /-- All upload-page steps up to and including `waitForFunction` succeed
  (redeban.js lines 126-153). -/
  uploadPrepOk : Bool
  /-- `page.click('button:has-text("Enviar")')` succeeds
  (redeban.js line 157). -/
  submitClickOk : Bool
deriving DecidableEq, Repr

/-- Control flow of `login` (navigation.js lines 695-821), including
`handleOTPFlow` (lines 473-555) and `checkOTPResult` (lines 557-602), as the
list of observable steps it performs plus its returned outcome. A thrown
error anywhere inside the `try` is caught at line 804 and converted into a
`{success: false}` return. -/
def loginModel (e : DriverEnv) : List StepName × LoginOutcome :=
  if !e.navOk then ([], .failed .navigationError)
  else if !e.pageTitleOk then ([], .failed .loginPageNotFound)
  else if !e.fillOk then ([], .failed .formFillError)
  else if !e.submitOk then ([], .failed .formSubmitError)
  else if e.credErr then ([StepName.loginSubmitted], .failed .credentialError)
  else if !e.otpFieldPresent then
    -- no OTP field: `handleOTPFlow` returns `checkLoginSuccess` directly
    if e.loginIndicatorsOk then
      ([StepName.loginSubmitted, StepName.otpVerified], .ok)
    else
      ([StepName.loginSubmitted], .failed .loginUncertain)
  else if !e.otpProvided then
    ([StepName.loginSubmitted], .failed .otpTimeout)
  else if !e.otpAccepted then
    ([StepName.loginSubmitted, StepName.otpSubmitted], .failed .otpInvalid)
  else if e.loginIndicatorsOk then
    ([StepName.loginSubmitted, StepName.otpSubmitted, StepName.otpVerified], .ok)
  else
    ([StepName.loginSubmitted, StepName.otpSubmitted], .failed .loginUncertain)

/-- Control flow of `uploadFile` (redeban.js lines 69-187) as the list of
observable steps of the run. The browser launch, connectivity check and
context creation (lines 86-105) happen BEFORE the `try` block: when one of
them throws, the error escapes `uploadFile` (only `.catch(console.error)` at
line 189 sees it) and no terminal metadata is written. Inside the `try`, a
login failure writes `failed` and returns (lines 112-120); an exception in
the upload steps is caught and writes `failed` (lines 172-181); the success
path writes `completed` (line 166). -/
def runUploadFile (e : DriverEnv) : List StepName :=
  [StepName.wroteStarted] ++
  (if !e.launchOk then []
   else
     [StepName.browserLaunched, StepName.connectivityChecked,
      StepName.contextCreated] ++
     (let loginRes := loginModel e
      loginRes.1 ++
      (match loginRes.2 with
       | .failed r => [StepName.wroteFailed r]
       | .ok =>
         [StepName.loggedIn] ++
         (if !e.uploadPrepOk then [StepName.wroteFailed .uploadStepError]
          else
            [StepName.fileSelected] ++
            (if !e.submitClickOk then [StepName.wroteFailed .submitClickError]
             else [StepName.formSubmitted, StepName.wroteCompleted])))))

/-- Whether a step is a terminal metadata write. -/
def isTerminalWrite : StepName → Bool
  | .wroteCompleted => true
  | .wroteFailed _ => true
  | _ => false

/-- The terminal metadata writes of a run, in order. -/
def terminalWrites (l : List StepName) : List StepName :=
  l.filter isTerminalWrite

/-! ## Claims -/

/-- C1 (counterexample). The claim says the Engine Fallback Chain stops at
the first Success: with engine 1 succeeding (k = 1) the attempt list must
have length 1 and engine 2 must not be invoked. In `runDualChromeTest`
(`unnamed/part_003`), with the simple Chrome attempt succeeding (screenshot
of 20000 bytes), both engines are still invoked: the attempt list has length
2 and contains the stealth variant. -/
theorem runDualChromeTest_not_first_success_cx :
    (runChromeTest_classify true 20000 0).success = true
    ∧ (runDualChromeTest_model (runChromeTest_classify true 20000 0)
        (runChromeTest_classify true 9000 0)).1 =
        [ChromeVariant.simple, ChromeVariant.stealth]
    ∧ ¬((runDualChromeTest_model (runChromeTest_classify true 20000 0)
        (runChromeTest_classify true 9000 0)).1.length = 1) := by
  decide

/-- C1 (amended). `runHybridAutomation` does stop at the first Success: if
Puppeteer succeeds only Puppeteer is invoked and it is selected; if Puppeteer
fails both engines are invoked and Chrome direct is selected exactly when it
succeeds. `runDualChromeTest`, in contrast, always invokes both Chrome
variants and then selects the first successful one in priority order. -/
theorem engineFallback_firstSuccess_amended :
    (∀ c : Bool, runHybrid_selectMethod true c =
      ([EngineKind.puppeteerMinimal], some EngineKind.puppeteerMinimal))
    ∧ (∀ c : Bool,
        (runHybrid_selectMethod false c).1 =
          [EngineKind.puppeteerMinimal, EngineKind.chromeDirect]
        ∧ (runHybrid_selectMethod false c).2 =
            (if c then some EngineKind.chromeDirect else none))
    ∧ (∀ s st : ChromeTestResult,
        (runDualChromeTest_model s st).1 =
          [ChromeVariant.simple, ChromeVariant.stealth]
        ∧ (s.success = true → (runDualChromeTest_model s st).2 = s)
        ∧ (s.success = false → st.success = true →
            (runDualChromeTest_model s st).2 = st)) := by
  refine ⟨by decide, by decide, fun s st => ⟨rfl, ?_, ?_⟩⟩
  · intro h
    simp [runDualChromeTest_model, h]
  · intro h1 h2
    simp [runDualChromeTest_model, h1, h2]

/-- Witness for C1 (amended): with the simple attempt failing (9000-byte
screenshot) and the stealth attempt succeeding (60000 bytes), the dual test
selects the stealth result. -/
theorem engineFallback_firstSuccess_amended_witness :
    (runDualChromeTest_model (runChromeTest_classify true 9000 2)
      (runChromeTest_classify true 60000 0)).2 =
      runChromeTest_classify true 60000 0 :=
  (engineFallback_firstSuccess_amended.2.2 _ _).2.2 (by decide) (by decide)

/-- C7. When all engines fail, both chains invoke the full engine list
(length 2 = N) and the overall status is failure: `runHybridAutomation`
selects no working method (and then throws, writing the `failed` metadata),
and `runDualChromeTest` returns an unsuccessful result, which
`runComprehensiveSolution` records with status `failed`. -/
theorem allEnginesFail_fullList_failure :
    ∀ s st : ChromeTestResult, s.success = false → st.success = false →
      (runHybrid_selectMethod false false).1.length = 2
      ∧ runHybrid_overallSuccess false false = false
      ∧ (runDualChromeTest_model s st).1.length = 2
      ∧ (runDualChromeTest_model s st).2.success = false
      ∧ runComprehensive_status (runDualChromeTest_model s st).2.success =
          "failed" := by
  intro s st h1 h2
  have hsel : (runDualChromeTest_model s st).2.success = false := by
    simp only [runDualChromeTest_model, h1, h2, Bool.false_eq_true, if_false]
    split <;> assumption
  exact ⟨by decide, by decide, rfl, hsel, by simp [runComprehensive_status, hsel]⟩

/-- Witness for C7: two concrete failing attempts (small screenshots). -/
theorem allEnginesFail_fullList_failure_witness :
    (runDualChromeTest_model (runChromeTest_classify true 9000 0)
      (runChromeTest_classify false 0 1)).2.success = false :=
  (allEnginesFail_fullList_failure _ _ (by decide) (by decide)).2.2.2.1

/-- C8. The context-selector decision embedded from
`createOptimalBrowserContext` is a pure function of the supplied connectivity
result and the static proxy configuration: the same inputs always give the
same profile, and the profile depends on the connectivity result only through
its `useProxy` field (the status code, title and error fields do not enter).
In the source, given a supplied (non-null) connectivity result, the function
performs no I/O beyond handing the constructed options to
`browser.newContext`. -/
theorem selectProfile_deterministic :
    ∀ (cr₁ cr₂ : ConnCheckResult) (cfg : RedebanConfig),
      createOptimalContextOptions cr₁ cfg = createOptimalContextOptions cr₁ cfg
      ∧ (cr₁.useProxy = cr₂.useProxy →
          createOptimalContextOptions cr₁ cfg =
            createOptimalContextOptions cr₂ cfg) := by
  intro cr₁ cr₂ cfg
  refine ⟨rfl, fun h => ?_⟩
  simp [createOptimalContextOptions, h]

/-- Witness for C8: two connectivity results that agree on `useProxy` but
differ in status code and title produce the same profile. -/
theorem selectProfile_deterministic_witness :
    createOptimalContextOptions
      { useProxy := true, statusCode := some 403, title := some "Forbidden",
        error := none, forceDirectConnection := false }
      { proxyHost := "pr.oxylabs.io", proxyPort := "7777",
        proxyUsername := "u", proxyPassword := "p" } =
    createOptimalContextOptions
      { useProxy := true, statusCode := some 500, title := none,
        error := none, forceDirectConnection := false }
      { proxyHost := "pr.oxylabs.io", proxyPort := "7777",
        proxyUsername := "u", proxyPassword := "p" } :=
  (selectProfile_deterministic _ _ _).2 rfl

/-- C3 (counterexample). The claim says that when the probe fails
(`reachable = false`, here: no status code) and a valid proxy configuration
is supplied, the selector routes via proxy with the endpoint populated. In
the current `src/modules/utils.js`, a probe navigation failure (connection
refused) is classified with `useProxy: false` and
`forceDirectConnection: true`, and the selector then builds a DIRECT context:
its `proxy` field is absent even though a full proxy configuration was
supplied. -/
theorem probeFailure_noProxy_cx :
    (checkNetworkConnectivity_classify
      (.navError "net::ERR_CONNECTION_REFUSED")).statusCode = none
    ∧ (checkNetworkConnectivity_classify
        (.navError "net::ERR_CONNECTION_REFUSED")).useProxy = false
    ∧ (createOptimalContextOptions
        (checkNetworkConnectivity_classify
          (.navError "net::ERR_CONNECTION_REFUSED"))
        { proxyHost := "pr.oxylabs.io", proxyPort := "7777",
          proxyUsername := "user", proxyPassword := "pass" }).proxy = none := by
  decide

/-- C3 (amended). In the current `utils.js` pipeline a failed probe always
yields `useProxy = false` with `forceDirectConnection = true` and the
selector builds a context without a proxy; the proxy endpoint is populated
from the configuration exactly when the connectivity result says
`useProxy = true` (blocked classification). The legacy copy embedded at the
end of `navigation.js` behaves as the claim says: a failed probe yields
`useProxy = true` and its selector populates the proxy endpoint from the
configuration. -/
theorem selectProfile_proxyRouting_amended :
    (∀ (msg : String) (cfg : RedebanConfig),
      (checkNetworkConnectivity_classify (.navError msg)).useProxy = false
      ∧ (checkNetworkConnectivity_classify
          (.navError msg)).forceDirectConnection = true
      ∧ (createOptimalContextOptions
          (checkNetworkConnectivity_classify (.navError msg)) cfg).proxy = none)
    ∧ (∀ (cr : ConnCheckResult) (cfg : RedebanConfig), cr.useProxy = true →
        (createOptimalContextOptions cr cfg).proxy = some
          { server := "http://" ++ cfg.proxyHost ++ ":" ++ cfg.proxyPort,
            username := cfg.proxyUsername, password := cfg.proxyPassword })
    ∧ (∀ (msg : String) (cfg : RedebanConfig),
        (checkNetworkConnectivity_classify_legacy (.navError msg)).useProxy = true
        ∧ (createOptimalContextOptions_legacy
            (checkNetworkConnectivity_classify_legacy (.navError msg)) cfg).proxy
            = some
              { server := "http://" ++ cfg.proxyHost ++ ":" ++ cfg.proxyPort,
                username := cfg.proxyUsername, password := cfg.proxyPassword }) := by
  refine ⟨fun msg cfg => ⟨rfl, rfl, ?_⟩, fun cr cfg h => ?_, fun msg cfg => ?_⟩
  · simp [createOptimalContextOptions, checkNetworkConnectivity_classify]
  · simp [createOptimalContextOptions, h]
  · constructor
    · simp [checkNetworkConnectivity_classify_legacy]
    · simp [createOptimalContextOptions_legacy, checkNetworkConnectivity_classify_legacy]

/-- Witness for C3 (amended): with a blocked classification (HTTP 403) the
selector populates the proxy endpoint from the configuration. -/
theorem selectProfile_proxyRouting_amended_witness :
    (createOptimalContextOptions
      { useProxy := true, statusCode := some 403, title := some "x",
        error := none, forceDirectConnection := false }
      { proxyHost := "pr.oxylabs.io", proxyPort := "7777",
        proxyUsername := "u", proxyPassword := "p" }).proxy = some
      { server := "http://" ++ "pr.oxylabs.io" ++ ":" ++ "7777",
        username := "u", password := "p" } :=
  selectProfile_proxyRouting_amended.2.1 _ _ rfl

/-- C2 (counterexample). The claim says a connection-refused, timeout or DNS
failure yields `reachable = false` with "the corresponding errorKind". The
reachable-false part holds, but the error classifier
(`parsePlaywrightError`) has no refused- or DNS-specific kinds at all: a
connection-refused message, a DNS-resolution message and an arbitrary
unrelated message are all assigned the same catch-all kind `general`, so a
DNS failure and a refused connection are NOT given corresponding (distinct,
cause-specific) error kinds. -/
theorem proberErrorKind_cx :
    (parsePlaywrightError (some "net::ERR_CONNECTION_REFUSED")).type =
      PlaywrightErrType.general
    ∧ (parsePlaywrightError (some "net::ERR_NAME_NOT_RESOLVED")).type =
        PlaywrightErrType.general
    ∧ (parsePlaywrightError (some "some unrelated internal failure")).type =
        PlaywrightErrType.general
    ∧ (checkNetworkConnectivity_classify
        (.navError "net::ERR_NAME_NOT_RESOLVED")).error =
        some "net::ERR_NAME_NOT_RESOLVED" := by
  decide

/-- C2 (amended). The prober classification of `checkNetworkConnectivity`
(`utils.js`): HTTP 200 with the `Pagos Recurrentes` marker gives
`useProxy = false` (reachable, not blocked); HTTP 403, or HTTP 200 without
the marker, gives `useProxy = true` (blocked); a navigation failure gives a
result with no status code (reachable = false), the parsed error message and
`forceDirectConnection = true`. The error classifier assigns the `timeout`
kind to any message containing `timeout`, but refused and DNS failures fall
into the catch-all `general` kind (see the counterexample). -/
theorem proberClassification_amended :
    (∀ (status : Nat) (title : String),
      (status = 200 → strIncludes title "Pagos Recurrentes" = true →
        (checkNetworkConnectivity_classify (.response status title)).useProxy
          = false
        ∧ (checkNetworkConnectivity_classify
            (.response status title)).statusCode = some status)
      ∧ (status = 403 →
          (checkNetworkConnectivity_classify (.response status title)).useProxy
            = true)
      ∧ (status = 200 → strIncludes title "Pagos Recurrentes" = false →
          (checkNetworkConnectivity_classify (.response status title)).useProxy
            = true))
    ∧ (∀ msg : String,
        (checkNetworkConnectivity_classify (.navError msg)).statusCode = none
        ∧ (checkNetworkConnectivity_classify (.navError msg)).error =
            some (parsePlaywrightError (some msg)).message
        ∧ (checkNetworkConnectivity_classify
            (.navError msg)).forceDirectConnection = true)
    ∧ (∀ msg : String, strIncludes (strToLower msg) "timeout" = true →
        (parsePlaywrightError (some msg)).type = PlaywrightErrType.timeout) := by
  refine ⟨fun status title => ⟨?_, ?_, ?_⟩, fun msg => ⟨rfl, rfl, rfl⟩,
    fun msg h => ?_⟩
  · intro h1 h2
    subst h1
    simp [checkNetworkConnectivity_classify, h2]
  · intro h
    subst h
    simp [checkNetworkConnectivity_classify, strIncludes]
  · intro h1 h2
    subst h1
    simp [checkNetworkConnectivity_classify, h2]
  · simp [parsePlaywrightError, h]

/-- Witness for C2 (amended): a 200 response carrying the expected marker is
classified as not needing the proxy. -/
theorem proberClassification_amended_witness :
    (checkNetworkConnectivity_classify
      (.response 200 "Pagos Recurrentes Redeban")).useProxy = false :=
  ((proberClassification_amended.1 200 "Pagos Recurrentes Redeban").1 rfl
    (by decide)).1

/-- C4. In every run of the workflow driver, the form-submission click
(`page.click('button:has-text("Enviar")')` in `uploadFile`) occurs only
after the OTP-handling stage of `login` has completed with success
(`handleOTPFlow` returned `{success: true}`): whenever `formSubmitted`
appears in the run trace, `otpVerified` appears strictly before it. -/
theorem formSubmitted_requires_otpVerified :
    ∀ e : DriverEnv,
      (runUploadFile e).contains StepName.formSubmitted = true →
        (runUploadFile e).contains StepName.otpVerified = true
        ∧ List.indexOf StepName.otpVerified (runUploadFile e) <
            List.indexOf StepName.formSubmitted (runUploadFile e) := by
  intro e
  obtain ⟨a, b, c, d, f, g, h, i, j, k, l, m⟩ := e
  revert a b c d f g h i j k l m
  decide

/-- Witness for C4: the all-successful run submits the form after verifying
the OTP. -/
theorem formSubmitted_requires_otpVerified_witness :
    (runUploadFile
      { launchOk := true, navOk := true, pageTitleOk := true, fillOk := true,
        submitOk := true, credErr := false, otpFieldPresent := true,
        otpProvided := true, otpAccepted := true, loginIndicatorsOk := true,
        uploadPrepOk := true, submitClickOk := true }).contains
      StepName.otpVerified = true :=
  (formSubmitted_requires_otpVerified _ (by decide)).1

/-- C5. When the portal reports the submitted OTP as invalid
(`checkOTPResult` detects the invalid-OTP marker), the run performs exactly
one OTP submission, writes a single terminal `failed` record with the
invalid-OTP error, and never reaches form submission: there is no retry
loop anywhere in `handleOTPFlow`, `login` or `uploadFile`. -/
theorem otpInvalid_singleShot_failure :
    ∀ e : DriverEnv,
      (runUploadFile e).contains StepName.otpSubmitted = true →
        e.otpAccepted = false →
          (runUploadFile e).count StepName.otpSubmitted = 1
          ∧ terminalWrites (runUploadFile e) =
              [StepName.wroteFailed FailReason.otpInvalid]
          ∧ (runUploadFile e).contains StepName.formSubmitted = false := by
  intro e
  obtain ⟨a, b, c, d, f, g, h, i, j, k, l, m⟩ := e
  revert a b c d f g h i j k l m
  decide

/-- Witness for C5: a run reaching the OTP submission whose OTP the portal
rejects submits once and fails with the invalid-OTP reason. -/
theorem otpInvalid_singleShot_failure_witness :
    terminalWrites (runUploadFile
      { launchOk := true, navOk := true, pageTitleOk := true, fillOk := true,
        submitOk := true, credErr := false, otpFieldPresent := true,
        otpProvided := true, otpAccepted := false, loginIndicatorsOk := true,
        uploadPrepOk := true, submitClickOk := true }) =
      [StepName.wroteFailed FailReason.otpInvalid] :=
  (otpInvalid_singleShot_failure _ (by decide) rfl).2.1

/-- C6 (counterexample). The claim says every run transitions from Started
to exactly one terminal state. In `uploadFile` the browser launch, the
connectivity check and the context creation happen BEFORE the `try` block:
when the launch throws, the run has written `started` but writes NO terminal
record at all (the error only reaches `.catch(console.error)` at line 189). -/
theorem processRun_terminal_missing_cx :
    (runUploadFile
      { launchOk := false, navOk := true, pageTitleOk := true, fillOk := true,
        submitOk := true, credErr := false, otpFieldPresent := true,
        otpProvided := true, otpAccepted := true, loginIndicatorsOk := true,
        uploadPrepOk := true, submitClickOk := true }).contains
      StepName.wroteStarted = true
    ∧ terminalWrites (runUploadFile
        { launchOk := false, navOk := true, pageTitleOk := true,
          fillOk := true, submitOk := true, credErr := false,
          otpFieldPresent := true, otpProvided := true, otpAccepted := true,
          loginIndicatorsOk := true, uploadPrepOk := true,
          submitClickOk := true }) = [] := by
  decide

/-- C6 (amended). Every `uploadFile` run writes `started` exactly once and
writes AT MOST one terminal record; it writes exactly one terminal record
(`completed` or `failed`) whenever the pre-`try` browser launch and context
creation succeed. A launch failure leaves the run with `started` and no
terminal record. -/
theorem processRun_terminal_atMostOnce_amended :
    ∀ e : DriverEnv,
      (terminalWrites (runUploadFile e)).length ≤ 1
      ∧ (runUploadFile e).count StepName.wroteStarted = 1
      ∧ (e.launchOk = true → (terminalWrites (runUploadFile e)).length = 1) := by
  intro e
  obtain ⟨a, b, c, d, f, g, h, i, j, k, l, m⟩ := e
  revert a b c d f g h i j k l m
  decide

/-- Witness for C6 (amended): a run whose launch succeeds writes exactly one
terminal record. -/
theorem processRun_terminal_atMostOnce_amended_witness :
    (terminalWrites (runUploadFile
      { launchOk := true, navOk := false, pageTitleOk := true, fillOk := true,
        submitOk := true, credErr := false, otpFieldPresent := true,
        otpProvided := true, otpAccepted := true, loginIndicatorsOk := true,
        uploadPrepOk := true, submitClickOk := true })).length = 1 :=
  (processRun_terminal_atMostOnce_amended _).2.2 rfl

/-- A poll step resolves only with a code that passed the six-digit test. -/
theorem otpCheckStep_resolveWith {obs : OTPObs} {code : String}
    (h : otpCheckStep obs = .resolveWith code) : isSixDigitOTP code = true := by
  cases obs with
  | absent => simp [otpCheckStep] at h
  | readError => simp [otpCheckStep] at h
  | content s =>
    by_cases hv : isSixDigitOTP (strTrim s) = true
    · simp [otpCheckStep, hv] at h
      exact h ▸ hv
    · simp [otpCheckStep, hv] at h

/-- If the current poll does not resolve, the current tick does not carry a
valid OTP. -/
theorem validOTPAt_eq_false_of_not_resolve {sched : Nat → OTPObs} {tick : Nat}
    (h : ∀ code, otpCheckStep (sched tick) ≠ .resolveWith code) :
    validOTPAt sched tick = false := by
  cases hs : sched tick with
  | absent => simp [validOTPAt, hs]
  | readError => simp [validOTPAt, hs]
  | content s =>
    cases hv : isSixDigitOTP (strTrim s) with
    | true =>
      exact absurd (by rw [hs]; simp [otpCheckStep, hv]) (h (strTrim s))
    | false => simp [validOTPAt, hs, hv]

/-- Whatever the fuel and the starting state, the polling loop resolves only
with a string that passed the six-digit test. -/
theorem otpLoopMs_resolved_isSixDigit (sched : Nat → OTPObs) (T : Nat) :
    ∀ (fuel tick elapsed : Nat) (c : String),
      otpLoopMs sched T fuel tick elapsed = .resolved c →
        isSixDigitOTP c = true := by
  intro fuel
  induction fuel with
  | zero =>
    intro tick elapsed c h
    simp [otpLoopMs] at h
  | succ f ih =>
    intro tick elapsed c h
    rcases hstep : otpCheckStep (sched tick) with code | _ | _
    · simp only [otpLoopMs, hstep] at h
      cases h
      exact otpCheckStep_resolveWith hstep
    · simp only [otpLoopMs, hstep] at h
      split at h
      · cases h
      · exact ih _ _ _ h
    · simp only [otpLoopMs, hstep] at h
      split at h
      · cases h
      · exact ih _ _ _ h

/-- Characterization of the polling loop rejecting, for the reachable states
of the loop (the elapsed time is always 1000 times the tick index): with
enough fuel, the loop times out exactly when no poll performed before the
timeout budget observes a valid OTP. The n-th poll happens exactly when
`1000 * n < timeoutMs` or `n = tick` (the first poll always happens). -/
theorem otpLoopMs_timedOut_iff (sched : Nat → OTPObs) (T : Nat) :
    ∀ fuel tick, T ≤ 1000 * fuel + 1000 * tick → 1 ≤ fuel →
      (otpLoopMs sched T fuel tick (1000 * tick) = .timedOut ↔
        ∀ n, tick ≤ n → (1000 * n < T ∨ n = tick) →
          validOTPAt sched n = false) := by
  intro fuel
  induction fuel with
  | zero =>
    intro tick hT h1
    exact absurd h1 (by omega)
  | succ f ih =>
    intro tick hT _
    rcases hstep : otpCheckStep (sched tick) with code | _ | _
    · -- the current poll resolves: both sides are false
      have hvalid : validOTPAt sched tick = true := by
        cases hs : sched tick with
        | content s =>
          rw [hs] at hstep
          cases hv : isSixDigitOTP (strTrim s) with
          | true => simp [validOTPAt, hs, hv]
          | false => simp [otpCheckStep, hv] at hstep
        | absent => rw [hs] at hstep; simp [otpCheckStep] at hstep
        | readError => rw [hs] at hstep; simp [otpCheckStep] at hstep
      refine iff_of_false ?_ ?_
      · intro h
        simp only [otpLoopMs, hstep] at h
        cases h
      · intro h
        have h2 := h tick le_rfl (Or.inr rfl)
        rw [hvalid] at h2
        cases h2
    · -- invalid content: delete, then shared continue/timeout logic
      have hnv : validOTPAt sched tick = false :=
        validOTPAt_eq_false_of_not_resolve
          (by intro code hc; rw [hstep] at hc; cases hc)
      simp only [otpLoopMs, hstep]
      by_cases hstop : T ≤ 1000 * tick + 1000
      · rw [if_pos hstop]
        refine iff_of_true rfl ?_
        intro n hn hcond
        rcases Nat.eq_or_lt_of_le hn with he | hlt
        · rw [← he]; exact hnv
        · exfalso; rcases hcond with hc | hc <;> omega
      · rw [if_neg hstop]
        have harith : (1000 : Nat) * tick + 1000 = 1000 * (tick + 1) := by ring
        rw [harith, ih (tick + 1) (by omega) (by omega)]
        constructor
        · intro h n hn hcond
          rcases Nat.eq_or_lt_of_le hn with he | hlt
          · rw [← he]; exact hnv
          · rcases hcond with hc | hc
            · exact h n hlt (Or.inl hc)
            · exact absurd hc (by omega)
        · intro h n hn hcond
          refine h n (by omega) ?_
          rcases hcond with hc | hc
          · exact Or.inl hc
          · exact Or.inl (by omega)
    · -- file absent or read error: shared continue/timeout logic
      have hnv : validOTPAt sched tick = false :=
        validOTPAt_eq_false_of_not_resolve
          (by intro code hc; rw [hstep] at hc; cases hc)
      simp only [otpLoopMs, hstep]
      by_cases hstop : T ≤ 1000 * tick + 1000
      · rw [if_pos hstop]
        refine iff_of_true rfl ?_
        intro n hn hcond
        rcases Nat.eq_or_lt_of_le hn with he | hlt
        · rw [← he]; exact hnv
        · exfalso; rcases hcond with hc | hc <;> omega
      · rw [if_neg hstop]
        have harith : (1000 : Nat) * tick + 1000 = 1000 * (tick + 1) := by ring
        rw [harith, ih (tick + 1) (by omega) (by omega)]
        constructor
        · intro h n hn hcond
          rcases Nat.eq_or_lt_of_le hn with he | hlt
          · rw [← he]; exact hnv
          · rcases hcond with hc | hc
            · exact h n hlt (Or.inl hc)
            · exact absurd hc (by omega)
        · intro h n hn hcond
          refine h n (by omega) ?_
          rcases hcond with hc | hc
          · exact Or.inl hc
          · exact Or.inl (by omega)

/-- C9. `waitForOTPFromWebSocket`: (1) the wait resolves only with a trimmed
file content that is exactly six decimal digits; (2) a file whose trimmed
content fails that test is deleted and polling continues; (3) the wait
rejects with the timeout error exactly when no poll performed within the
timeout budget (the n-th poll happens when `1000 * n < timeoutMs`, plus the
initial poll) observes a valid six-digit code. -/
theorem waitForOTP_sixDigit_spec (sched : Nat → OTPObs) (timeoutMs : Nat) :
    (∀ c, waitForOTPFromWebSocket_model sched timeoutMs = .resolved c →
      isSixDigitOTP c = true)
    ∧ (∀ s, isSixDigitOTP (strTrim s) = false →
        otpCheckStep (.content s) = .deleteAndContinue)
    ∧ (waitForOTPFromWebSocket_model sched timeoutMs = .timedOut ↔
        ∀ n, 1000 * n < timeoutMs ∨ n = 0 → validOTPAt sched n = false) := by
  refine ⟨fun c h => otpLoopMs_resolved_isSixDigit sched timeoutMs _ _ _ c h,
    fun s hs => by simp [otpCheckStep, hs], ?_⟩
  have h0 := otpLoopMs_timedOut_iff sched timeoutMs (timeoutMs + 1) 0
    (by omega) (by omega)
  simp only [Nat.mul_zero] at h0
  rw [waitForOTPFromWebSocket_model, h0]
  constructor
  · intro h n hc
    exact h n (Nat.zero_le n) hc
  · intro h n _ hc
    exact h n hc

/-- Witness for C9: with the OTP file never appearing, a 3-second wait times
out. -/
theorem waitForOTP_sixDigit_spec_witness :
    waitForOTPFromWebSocket_model (fun _ => OTPObs.absent) 3000 =
      OTPWaitResult.timedOut :=
  (waitForOTP_sixDigit_spec (fun _ => OTPObs.absent) 3000).2.2.mpr
    (fun _ _ => rfl)

/-- C10. The subprocess-Chrome adapters classify an attempt as successful
exactly when the screenshot file exists and its size exceeds the fixed
threshold — 15000 bytes in `runChromeTest` of the dual-Chrome test, 50000
bytes in `runAntiDetectionAutomation` — independently of the Chrome exit
code; in particular a screenshot at exactly the threshold yields failure
even with exit code 0. -/
theorem chromeScreenshotThreshold_success_iff :
    (∀ (ex : Bool) (size : Nat) (code : Int),
      (runChromeTest_classify ex size code).success =
        (ex && decide (15000 < size))
      ∧ (runAntiDetection_classify ex size code).success =
        (ex && decide (50000 < size)))
    ∧ (runChromeTest_classify true 15000 0).success = false
    ∧ (runAntiDetection_classify true 50000 0).success = false := by
  refine ⟨fun ex size code => ⟨?_, ?_⟩, by decide, by decide⟩ <;>
    cases ex <;> simp [runChromeTest_classify, runAntiDetection_classify]
